import Mathlib

/-!
Shallow embedding of the core simulation of the Car-simulator repository:
the vehicle dynamics of src/src/core/vehicle.cpp, the circle-collision
primitive of src/src/core/game_object.cpp, the obstacle / powerup collision
sweeps of src/src/core/obstacle_manager.cpp and src/src/core/powerup_manager.cpp,
and the constrained random placement of src/include/core/random_position_generator.hpp.

C++ floats are modelled as real numbers; std::sqrt, std::log, std::sin,
std::cos and pi are Real.sqrt, Real.log, Real.sin, Real.cos and Real.pi.
-/

namespace CarSim

noncomputable section

/-- std::clamp(v, lo, hi): lo when v < lo, hi when hi < v, otherwise v. -/
def clampR (v lo hi : ℝ) : ℝ :=
  if v < lo then lo else if hi < v then hi else v

/-! ## Physics constants, file-local to src/src/core/vehicle.cpp -/

def MAX_SPEED : ℝ := 55.56
def MAX_REVERSE_SPEED : ℝ := 13.9
def TURN_SPEED : ℝ := 1.5
def FORWARD_ACCELERATION : ℝ := 8.0
def BACKWARD_ACCELERATION : ℝ := -4.0
def FRICTION_COEFFICIENT : ℝ := 0.9985
def DRIFT_FRICTION_COEFFICIENT : ℝ := 0.992
def MIN_SPEED_THRESHOLD : ℝ := 0.1

def NITROUS_DURATION : ℝ := 5.0
def NITROUS_ACCELERATION : ℝ := 14.0
def NITROUS_MAX_SPEED : ℝ := 69.44

def VEHICLE_WIDTH : ℝ := 1.0
def VEHICLE_HEIGHT : ℝ := 0.5
def VEHICLE_LENGTH : ℝ := 2.0

def TURN_RATE_MIN_SPEED : ℝ := 0.3
def TURN_RATE_LOW_SPEED : ℝ := 3.0
def TURN_RATE_MEDIUM_SPEED : ℝ := 15.0
def DRIFT_ANGLE_MULTIPLIER : ℝ := 1.2
def DRIFT_EXIT_RETENTION : ℝ := 0.5
def DRIFT_DECAY_RATE : ℝ := 0.95

def NUM_GEARS : ℤ := 5
def GEAR_SHIFT_DOWN_RPM : ℝ := 2500.0
def IDLE_RPM : ℝ := 1000.0
def MAX_RPM : ℝ := 7000.0

/-- GEAR_SPEEDS[i] of vehicle.cpp: the NUM_GEARS + 1 gear boundary speeds. -/
def GEAR_SPEEDS (i : ℤ) : ℝ :=
  if i = 0 then 0.0
  else if i = 1 then 12.0
  else if i = 2 then 22.0
  else if i = 3 then 35.0
  else if i = 4 then 48.0
  else if i = 5 then 70.0
  else 0.0

/-- GEAR_ACCELERATION_MULTIPLIERS[i] of vehicle.cpp (index 0 is gear 1). -/
def GEAR_ACCELERATION_MULTIPLIERS (i : ℤ) : ℝ :=
  if i = 0 then 1.5
  else if i = 1 then 1.2
  else if i = 2 then 1.0
  else if i = 3 then 0.8
  else if i = 4 then 0.6
  else 1.0

def TWO_PI : ℝ := 2 * Real.pi
def INITIAL_ROTATION_RADIANS : ℝ := Real.pi

/-- MIN_DISTANCE_EPSILON of src/src/core/game_object.cpp. -/
def MIN_DISTANCE_EPSILON : ℝ := 0.001

/-- Truncation toward zero, as a C float-to-int cast and std::fmod truncate. -/
def truncR (x : ℝ) : ℤ :=
  if 0 ≤ x then ⌊x⌋ else ⌈x⌉

/-- std::fmod(x, y) = x - trunc(x / y) * y. -/
def fmodR (x y : ℝ) : ℝ :=
  x - y * truncR (x / y)

/-! ## The circle-collision primitive of src/src/core/game_object.cpp -/

/-- The slice of GameObject state that checkCircleCollision reads: position
(only x and z are used; y is carried along) and the cached collision radius. -/
structure Entity where
  px : ℝ
  py : ℝ
  pz : ℝ
  collisionRadius : ℝ

/-- GameObject::checkCircleCollision(other, overlapDistance, normalX, normalZ):
none models the return value false (no collision); some (overlap, nx, nz)
models true plus the three out-parameters. -/
def checkCircleCollision (self other : Entity) : Option (ℝ × ℝ × ℝ) :=
  let radiusSum := self.collisionRadius + other.collisionRadius
  let distanceX := other.px - self.px
  let distanceZ := other.pz - self.pz
  let distanceSquared := distanceX * distanceX + distanceZ * distanceZ
  let radiusSumSquared := radiusSum * radiusSum
  if distanceSquared > radiusSumSquared then none
  else
    let distance := Real.sqrt distanceSquared
    if distance ≤ MIN_DISTANCE_EPSILON then some (radiusSum, 1.0, 0.0)
    else some (radiusSum - distance, distanceX / distance, distanceZ / distance)

/-- GameObject::intersects(other): the boolean verdict of checkCircleCollision. -/
def intersects (self other : Entity) : Prop :=
  (checkCircleCollision self other).isSome = true

/-- GameObject::updateCollisionRadius() applied to the constructor size
{1, 1, 1}: sqrt((1/2)^2 + (1/2)^2).  Neither the Vehicle nor the Obstacle
nor the Powerup constructor calls updateCollisionRadius after overwriting
size_, so every object keeps this cached radius. -/
def gameObjectInitialRadius : ℝ := Real.sqrt (0.5 * 0.5 + 0.5 * 0.5)

/-! ## Vehicle state, src/src/core/vehicle.cpp (fields of the class headers
that vehicle.cpp never writes or reads, such as steeringInput_, are omitted) -/

structure Vehicle where
  px : ℝ
  py : ℝ
  pz : ℝ
  initialPx : ℝ
  initialPy : ℝ
  initialPz : ℝ
  rotation : ℝ
  initialRotation : ℝ
  sizeX : ℝ
  sizeY : ℝ
  sizeZ : ℝ
  collisionRadius : ℝ
  active : Bool
  velocity : ℝ
  acceleration : ℝ
  isDrifting : Bool
  driftAngle : ℝ
  hasNitrous : Bool
  nitrousActive : Bool
  nitrousTimeRemaining : ℝ
  currentGear : ℤ
  rpm : ℝ

def Vehicle.toEntity (s : Vehicle) : Entity :=
  { px := s.px, py := s.py, pz := s.pz, collisionRadius := s.collisionRadius }

/-- Vehicle::Vehicle(x, y, z): GameObject(x, y, z) leaves collisionRadius_ at
the value computed from size {1,1,1}; the constructor body then overwrites
size_ and rotation_ without recomputing the radius. -/
def mkVehicle (x y z : ℝ) : Vehicle :=
  { px := x, py := y, pz := z
    initialPx := x, initialPy := y, initialPz := z
    rotation := INITIAL_ROTATION_RADIANS
    initialRotation := INITIAL_ROTATION_RADIANS
    sizeX := VEHICLE_WIDTH, sizeY := VEHICLE_HEIGHT, sizeZ := VEHICLE_LENGTH
    collisionRadius := gameObjectInitialRadius
    active := true
    velocity := 0
    acceleration := 0
    isDrifting := false
    driftAngle := 0
    hasNitrous := false
    nitrousActive := false
    nitrousTimeRemaining := 0
    currentGear := 1
    rpm := IDLE_RPM }

/-- GameObject::setPosition(x, y, z). -/
def setPosition (s : Vehicle) (x y z : ℝ) : Vehicle :=
  { s with px := x, py := y, pz := z }

/-- GameObject::setRotation(rotation). -/
def setRotation (s : Vehicle) (rotation : ℝ) : Vehicle :=
  { s with rotation := rotation }

/-- Vehicle::setVelocity(velocity). -/
def setVelocity (s : Vehicle) (velocity : ℝ) : Vehicle :=
  { s with velocity := velocity }

/-- Vehicle::getGearAccelerationMultiplier(). -/
def getGearAccelerationMultiplier (currentGear : ℤ) : ℝ :=
  if 1 ≤ currentGear ∧ currentGear ≤ NUM_GEARS then
    GEAR_ACCELERATION_MULTIPLIERS (currentGear - 1)
  else 1.0

/-- Vehicle::accelerateForward(). -/
def accelerateForward (s : Vehicle) : Vehicle :=
  let base_acceleration := if s.nitrousActive then NITROUS_ACCELERATION else FORWARD_ACCELERATION
  { s with acceleration := base_acceleration * getGearAccelerationMultiplier s.currentGear }

/-- Vehicle::accelerateBackward(). -/
def accelerateBackward (s : Vehicle) : Vehicle :=
  { s with acceleration := BACKWARD_ACCELERATION }

/-- Vehicle::calculateTurnRate(): the five-segment piecewise turn-rate curve
over the absolute velocity. -/
def calculateTurnRate (s : Vehicle) : ℝ :=
  let absolute_velocity := |s.velocity|
  if absolute_velocity < MIN_SPEED_THRESHOLD then 0.0
  else if absolute_velocity < TURN_RATE_MIN_SPEED then
    0.05 + ((absolute_velocity - MIN_SPEED_THRESHOLD) / 0.2) * 0.1
  else if absolute_velocity < TURN_RATE_LOW_SPEED then
    0.15 + ((absolute_velocity - TURN_RATE_MIN_SPEED) / 2.7) * 0.35
  else if absolute_velocity < TURN_RATE_MEDIUM_SPEED then
    0.5 + ((absolute_velocity - TURN_RATE_LOW_SPEED) / 12.0) * 0.5
  else
    clampR (1.0 - ((absolute_velocity - TURN_RATE_MEDIUM_SPEED) / (MAX_SPEED - TURN_RATE_MEDIUM_SPEED)) * 0.4) 0.6 1.0

def MAX_DRIFT_ANGLE : ℝ := Real.pi / 3.0

/-- Rotation normalization at the end of Vehicle::turn: std::fmod into
(-2 pi, 2 pi), then + 2 pi when negative. -/
def normalizeRotation (rotation : ℝ) : ℝ :=
  let r := fmodR rotation TWO_PI
  if r < 0 then r + TWO_PI else r

/-- Vehicle::turn(amount). -/
def turn (s : Vehicle) (amount : ℝ) : Vehicle :=
  let turn_rate := calculateTurnRate s
  let rotation1 := s.rotation + amount * TURN_SPEED * turn_rate
  let driftAngle1 :=
    if s.isDrifting then
      clampR (s.driftAngle + amount * TURN_SPEED * turn_rate * DRIFT_ANGLE_MULTIPLIER)
        (-MAX_DRIFT_ANGLE) MAX_DRIFT_ANGLE
    else s.driftAngle
  { s with rotation := normalizeRotation rotation1, driftAngle := driftAngle1 }

/-- Vehicle::activateNitrous(). -/
def activateNitrous (s : Vehicle) : Vehicle :=
  if s.hasNitrous = true ∧ s.nitrousActive = false then
    { s with nitrousActive := true, nitrousTimeRemaining := NITROUS_DURATION, hasNitrous := false }
  else s

/-- Vehicle::startDrift(). -/
def startDrift (s : Vehicle) : Vehicle :=
  { s with isDrifting := true }

/-- Vehicle::stopDrift(). -/
def stopDrift (s : Vehicle) : Vehicle :=
  { s with isDrifting := false, driftAngle := s.driftAngle * DRIFT_EXIT_RETENTION }

/-- Vehicle::pickupNitrous(). -/
def pickupNitrous (s : Vehicle) : Vehicle :=
  { s with hasNitrous := true }

/-- Vehicle::updateGearShifting(): one incremental shift per call, driven by
the velocity the vehicle has when update() begins. -/
def updateGearShifting (currentGear : ℤ) (velocity : ℝ) : ℤ :=
  let absolute_velocity := |velocity|
  if velocity < 0 then 0
  else if absolute_velocity < 0.1 then 1
  else if currentGear < NUM_GEARS ∧ GEAR_SPEEDS currentGear ≤ absolute_velocity then
    currentGear + 1
  else if 1 < currentGear ∧ absolute_velocity < GEAR_SPEEDS (currentGear - 1) then
    currentGear - 1
  else currentGear

/-- Vehicle::update(deltaTime), transcribed step for step: nitrous timer,
gear shift, velocity integration, log-curve friction, velocity clamp, RPM,
drift decay, position integration, acceleration reset.  The two mutations of
the nitrous block are split into one let per field. -/
def update (s : Vehicle) (deltaTime : ℝ) : Vehicle :=
  let nt := s.nitrousTimeRemaining - deltaTime
  let nitrousActive1 := if s.nitrousActive then (if nt ≤ 0 then false else true) else s.nitrousActive
  let nitrousTime1 := if s.nitrousActive then (if nt ≤ 0 then 0 else nt) else s.nitrousTimeRemaining
  let gear1 := updateGearShifting s.currentGear s.velocity
  let v1 := s.velocity + s.acceleration * deltaTime
  let baseFriction := if s.isDrifting then DRIFT_FRICTION_COEFFICIENT else FRICTION_COEFFICIENT
  let speedRatio := clampR (|v1| / MAX_SPEED) 0.01 1.0
  let logValue := Real.log speedRatio
  let frictionRange := (0.9985 : ℝ) - 0.994
  let frictionMultiplier := clampR (0.994 + ((logValue + 4.6) / 4.6) * frictionRange) 0.994 0.9985
  let friction_coefficient := if s.isDrifting then baseFriction else frictionMultiplier
  let v2 := v1 * friction_coefficient
  let current_max_speed := if nitrousActive1 then NITROUS_MAX_SPEED else MAX_SPEED
  let v3 := clampR v2 (-MAX_REVERSE_SPEED) current_max_speed
  let absolute_velocity := |v3|
  let rpm1 :=
    if absolute_velocity < 0.1 then IDLE_RPM
    else if 0 < gear1 ∧ gear1 ≤ NUM_GEARS then
      let gear_min_speed := GEAR_SPEEDS (gear1 - 1)
      let gear_max_speed := GEAR_SPEEDS gear1
      let speed_ratio := clampR ((absolute_velocity - gear_min_speed) / (gear_max_speed - gear_min_speed)) 0.0 1.0
      GEAR_SHIFT_DOWN_RPM + speed_ratio * (MAX_RPM - GEAR_SHIFT_DOWN_RPM)
    else s.rpm
  let movement_angle := if s.isDrifting then s.rotation - s.driftAngle else s.rotation
  let driftAngle1 := if s.isDrifting then s.driftAngle * DRIFT_DECAY_RATE else s.driftAngle
  let delta_x := Real.sin movement_angle * v3 * deltaTime
  let delta_z := Real.cos movement_angle * v3 * deltaTime
  { s with
    nitrousActive := nitrousActive1
    nitrousTimeRemaining := nitrousTime1
    currentGear := gear1
    velocity := v3
    rpm := rpm1
    driftAngle := driftAngle1
    px := s.px + delta_x
    pz := s.pz + delta_z
    acceleration := 0 }

/-- A sequence of Vehicle::update calls, one per listed deltaTime. -/
def updateSeq (s : Vehicle) (dts : List ℝ) : Vehicle :=
  dts.foldl update s

/-! ## Obstacles and ObstacleManager, src/src/core/obstacle.cpp and
src/src/core/obstacle_manager.cpp -/

structure Obstacle where
  px : ℝ
  py : ℝ
  pz : ℝ
  sizeX : ℝ
  sizeY : ℝ
  sizeZ : ℝ
  collisionRadius : ℝ

def Obstacle.toEntity (o : Obstacle) : Entity :=
  { px := o.px, py := o.py, pz := o.pz, collisionRadius := o.collisionRadius }

/-- ObjectSizes::WALL_LENGTH. -/
def WALL_LENGTH : ℝ := 5.0
/-- ObjectSizes::WALL_THICKNESS. -/
def WALL_THICKNESS : ℝ := 2.0

/-- Obstacle::Obstacle(x, y, z, WALL, HORIZONTAL): size {WALL_LENGTH, h,
WALL_THICKNESS}; the constructor never recomputes collisionRadius_, so it
stays at the GameObject constructor value.  The height component h comes from
GameConfig::Obstacle::WALL_HEIGHT in core/game_config.hpp, a file that is not
in the repository sources; it is passed here as a parameter (it is never read
by any collision code). -/
def mkWallHorizontal (x y z sizeH : ℝ) : Obstacle :=
  { px := x, py := y, pz := z
    sizeX := WALL_LENGTH, sizeY := sizeH, sizeZ := WALL_THICKNESS
    collisionRadius := gameObjectInitialRadius }

/-- Obstacle::Obstacle(x, y, z, WALL, VERTICAL): size {WALL_THICKNESS, h,
WALL_LENGTH}. -/
def mkWallVertical (x y z sizeH : ℝ) : Obstacle :=
  { px := x, py := y, pz := z
    sizeX := WALL_THICKNESS, sizeY := sizeH, sizeZ := WALL_LENGTH
    collisionRadius := gameObjectInitialRadius }

/-- WALL_HEIGHT of obstacle_manager.cpp: the y coordinate walls are placed at. -/
def WALL_HEIGHT : ℝ := 2.5
/-- WALL_SEGMENT_LENGTH of obstacle_manager.cpp. -/
def WALL_SEGMENT_LENGTH : ℝ := 5.0
/-- COLLISION_BUFFER of ObstacleManager::handleCollisions. -/
def COLLISION_BUFFER : ℝ := 0.05

/-- ObstacleManager::generateWalls(playAreaSize): for each of
int(playAreaSize / WALL_SEGMENT_LENGTH) segment indices, one north, south,
west and east wall segment, in this order. -/
def generateWalls (playAreaSize sizeH : ℝ) : List Obstacle :=
  let halfSize := playAreaSize / 2
  let segmentsPerSide := (truncR (playAreaSize / WALL_SEGMENT_LENGTH)).toNat
  ((List.range segmentsPerSide).map fun i =>
    let offset := -halfSize + ((i : ℝ) * WALL_SEGMENT_LENGTH) + WALL_SEGMENT_LENGTH / 2
    [ mkWallHorizontal offset WALL_HEIGHT (-halfSize) sizeH,
      mkWallHorizontal offset WALL_HEIGHT halfSize sizeH,
      mkWallVertical (-halfSize) WALL_HEIGHT offset sizeH,
      mkWallVertical halfSize WALL_HEIGHT offset sizeH ]).flatten

/-- One iteration of the loop in ObstacleManager::handleCollisions(vehicle):
circle test, axis-aligned box overlap, push-out along the axis of smaller
overlap plus COLLISION_BUFFER (keeping position_[1]), velocity scaled to 30
percent.  There is no early exit: the loop continues over every obstacle. -/
def handleObstacle (vehicle : Vehicle) (obstacle : Obstacle) : Vehicle :=
  if (checkCircleCollision vehicle.toEntity obstacle.toEntity).isSome then
    let dx := vehicle.px - obstacle.px
    let dz := vehicle.pz - obstacle.pz
    let overlapX := (vehicle.sizeX + obstacle.sizeX) / 2 - |dx|
    let overlapZ := (vehicle.sizeZ + obstacle.sizeZ) / 2 - |dz|
    if 0 < overlapX ∧ 0 < overlapZ then
      let pushed :=
        if overlapX < overlapZ then
          { vehicle with px := vehicle.px + (if 0 < dx then overlapX + COLLISION_BUFFER else -(overlapX + COLLISION_BUFFER)) }
        else
          { vehicle with pz := vehicle.pz + (if 0 < dz then overlapZ + COLLISION_BUFFER else -(overlapZ + COLLISION_BUFFER)) }
      { pushed with velocity := pushed.velocity * 0.3 }
    else vehicle
  else vehicle

/-- ObstacleManager::handleCollisions(vehicle): the loop over all obstacles. -/
def ObstacleManager.handleCollisions (obstacles : List Obstacle) (vehicle : Vehicle) : Vehicle :=
  obstacles.foldl handleObstacle vehicle

/-! ## Powerups and PowerupManager, src/src/core/powerup.cpp and
src/src/core/powerup_manager.cpp -/

structure Powerup where
  px : ℝ
  py : ℝ
  pz : ℝ
  sizeX : ℝ
  sizeY : ℝ
  sizeZ : ℝ
  collisionRadius : ℝ
  active : Bool

def Powerup.toEntity (p : Powerup) : Entity :=
  { px := p.px, py := p.py, pz := p.pz, collisionRadius := p.collisionRadius }

/-- ObjectSizes::POWERUP_SIZE. -/
def POWERUP_SIZE : ℝ := 0.8

/-- Powerup::Powerup(x, y, z, NITROUS): size {POWERUP_SIZE, POWERUP_SIZE,
POWERUP_SIZE}; collisionRadius_ again keeps the GameObject constructor value. -/
def mkPowerup (x y z : ℝ) : Powerup :=
  { px := x, py := y, pz := z
    sizeX := POWERUP_SIZE, sizeY := POWERUP_SIZE, sizeZ := POWERUP_SIZE
    collisionRadius := gameObjectInitialRadius
    active := true }

/-- PowerupManager::handleCollisions(vehicle): the loop over all powerups,
collecting (pickupNitrous plus setActive(false)) exactly when the powerup is
active, the vehicle holds no nitrous, no boost is running, and the circles
intersect.  Returns the final vehicle plus the updated powerup list. -/
def PowerupManager.handleCollisions : Vehicle → List Powerup → Vehicle × List Powerup
  | vehicle, [] => (vehicle, [])
  | vehicle, p :: ps =>
    if p.active = true ∧ vehicle.hasNitrous = false ∧ vehicle.nitrousActive = false ∧
        (checkCircleCollision vehicle.toEntity p.toEntity).isSome = true then
      let rest := PowerupManager.handleCollisions (pickupNitrous vehicle) ps
      (rest.1, { p with active := false } :: rest.2)
    else
      let rest := PowerupManager.handleCollisions vehicle ps
      (rest.1, p :: rest.2)

/-- PowerupManager::reset(): setActive(true) on every powerup. -/
def PowerupManager.reset (powerups : List Powerup) : List Powerup :=
  powerups.map fun p => { p with active := true }

/-! ## RandomPositionGenerator, src/include/core/random_position_generator.hpp.
The mt19937 draws are modelled as an input stream of positions: draws n is the
n-th value getRandomPosition() would produce. -/

structure RandomPositionGenerator where
  minPos : ℝ
  maxPos : ℝ

/-- RandomPositionGenerator(playAreaSize, margin). -/
def mkRandomPositionGenerator (playAreaSize margin : ℝ) : RandomPositionGenerator :=
  { minPos := -(playAreaSize / 2) + margin, maxPos := playAreaSize / 2 - margin }

/-- RandomPositionGenerator::isPositionValid(pos, existingPositions,
minDistance): no existing position lies closer than minDistance. -/
def isPositionValid (pos : ℝ × ℝ) (existingPositions : List (ℝ × ℝ)) (minDistance : ℝ) : Prop :=
  ∀ existing ∈ existingPositions,
    ¬ (Real.sqrt ((pos.1 - existing.1) * (pos.1 - existing.1) +
        (pos.2 - existing.2) * (pos.2 - existing.2)) < minDistance)

open Classical in
/-- The retry loop of getRandomPositionWithMinDistance: index is the next
draw to consume, the second argument the remaining attempts; when the budget
is exhausted, one final unconstrained draw is returned. -/
def minDistanceLoop (draws : ℕ → ℝ × ℝ) (existingPositions : List (ℝ × ℝ))
    (minDistance : ℝ) : ℕ → ℕ → ℝ × ℝ
  | index, 0 => draws index
  | index, remaining + 1 =>
    let pos := draws index
    if isPositionValid pos existingPositions minDistance then pos
    else minDistanceLoop draws existingPositions minDistance (index + 1) remaining

/-- RandomPositionGenerator::getRandomPositionWithMinDistance(existingPositions,
minDistance, maxAttempts = 100). -/
def getRandomPositionWithMinDistance (draws : ℕ → ℝ × ℝ)
    (existingPositions : List (ℝ × ℝ)) (minDistance : ℝ) (maxAttempts : ℕ) : ℝ × ℝ :=
  minDistanceLoop draws existingPositions minDistance 0 maxAttempts

open Classical in
/-- The retry loop of getRandomPositionWithConstraints: a draw too close to
the center is rejected (continue), then the minimum-distance check as above. -/
def constraintsLoop (draws : ℕ → ℝ × ℝ) (existingPositions : List (ℝ × ℝ))
    (minDistanceFromCenter minDistanceFromOthers : ℝ) : ℕ → ℕ → ℝ × ℝ
  | index, 0 => draws index
  | index, remaining + 1 =>
    let pos := draws index
    let distFromCenter := Real.sqrt (pos.1 * pos.1 + pos.2 * pos.2)
    if distFromCenter < minDistanceFromCenter then
      constraintsLoop draws existingPositions minDistanceFromCenter minDistanceFromOthers (index + 1) remaining
    else if isPositionValid pos existingPositions minDistanceFromOthers then pos
    else constraintsLoop draws existingPositions minDistanceFromCenter minDistanceFromOthers (index + 1) remaining

/-- RandomPositionGenerator::getRandomPositionWithConstraints(existingPositions,
minDistanceFromCenter, minDistanceFromOthers, maxAttempts = 100). -/
def getRandomPositionWithConstraints (draws : ℕ → ℝ × ℝ)
    (existingPositions : List (ℝ × ℝ)) (minDistanceFromCenter minDistanceFromOthers : ℝ)
    (maxAttempts : ℕ) : ℝ × ℝ :=
  constraintsLoop draws existingPositions minDistanceFromCenter minDistanceFromOthers 0 maxAttempts

/-- Membership in the margin-shrunk square the generator samples from. -/
def inSquare (gen : RandomPositionGenerator) (pos : ℝ × ℝ) : Prop :=
  gen.minPos ≤ pos.1 ∧ pos.1 ≤ gen.maxPos ∧ gen.minPos ≤ pos.2 ∧ pos.2 ≤ gen.maxPos

/-! ## Specification-side definitions, written from the claim wording, for
comparison against the code-side functions above -/

/-- The gear selection the specification describes: a pure function of the
current velocity — gear 0 when velocity < 0, gear 1 when the absolute
velocity is below the minimum threshold, otherwise the smallest gear whose
upper boundary speed in GEAR_SPEEDS exceeds the absolute velocity. -/
def specGear (velocity : ℝ) : ℤ :=
  if velocity < 0 then 0
  else if |velocity| < 0.1 then 1
  else if |velocity| < GEAR_SPEEDS 1 then 1
  else if |velocity| < GEAR_SPEEDS 2 then 2
  else if |velocity| < GEAR_SPEEDS 3 then 3
  else if |velocity| < GEAR_SPEEDS 4 then 4
  else 5

/-! ## Helper lemmas -/

theorem le_clampR (v lo hi : ℝ) (h : lo ≤ hi) : lo ≤ clampR v lo hi := by
  unfold clampR; split_ifs <;> linarith

theorem clampR_le (v lo hi : ℝ) (h : lo ≤ hi) : clampR v lo hi ≤ hi := by
  unfold clampR; split_ifs <;> linarith

theorem clampR_eq_self (v lo hi : ℝ) (h1 : lo ≤ v) (h2 : v ≤ hi) : clampR v lo hi = v := by
  unfold clampR; split_ifs <;> linarith

theorem clampR_abs_le (v lo hi bound : ℝ) (h1 : -bound ≤ lo) (h2 : lo ≤ hi) (h3 : hi ≤ bound) :
    |clampR v lo hi| ≤ bound :=
  abs_le.2 ⟨le_trans h1 (le_clampR v lo hi h2), le_trans (clampR_le v lo hi h2) h3⟩

/-- C2: after every update(deltaTime) call, for every state and every
deltaTime (including nonpositive and arbitrarily large ones), the velocity
lies in the interval from -MAX_REVERSE_SPEED up to NITROUS_MAX_SPEED when
nitrous is active afterwards and MAX_SPEED otherwise; in particular its
absolute value never exceeds twice MAX_SPEED. -/
theorem C2_velocity_clamped_after_update (s : Vehicle) (deltaTime : ℝ) :
    -MAX_REVERSE_SPEED ≤ (update s deltaTime).velocity ∧
    (update s deltaTime).velocity ≤
      (if (update s deltaTime).nitrousActive then NITROUS_MAX_SPEED else MAX_SPEED) ∧
    |(update s deltaTime).velocity| ≤ 2 * MAX_SPEED := by
  have hv : (update s deltaTime).velocity =
      clampR ((s.velocity + s.acceleration * deltaTime) *
        (if s.isDrifting then
            (if s.isDrifting then DRIFT_FRICTION_COEFFICIENT else FRICTION_COEFFICIENT)
          else clampR (0.994 + ((Real.log (clampR (|s.velocity + s.acceleration * deltaTime| / MAX_SPEED) 0.01 1.0) + 4.6) / 4.6) *
              ((0.9985 : ℝ) - 0.994)) 0.994 0.9985))
        (-MAX_REVERSE_SPEED)
        (if (update s deltaTime).nitrousActive then NITROUS_MAX_SPEED else MAX_SPEED) := by
    simp only [update]
  rw [hv]
  cases hb : (update s deltaTime).nitrousActive <;>
    simp only [hb, Bool.false_eq_true, if_false, if_true]
  · exact ⟨le_clampR _ _ _ (by norm_num [MAX_REVERSE_SPEED, MAX_SPEED]),
      clampR_le _ _ _ (by norm_num [MAX_REVERSE_SPEED, MAX_SPEED]),
      clampR_abs_le _ _ _ _ (by norm_num [MAX_REVERSE_SPEED, MAX_SPEED])
        (by norm_num [MAX_REVERSE_SPEED, MAX_SPEED]) (by norm_num [MAX_SPEED])⟩
  · exact ⟨le_clampR _ _ _ (by norm_num [MAX_REVERSE_SPEED, NITROUS_MAX_SPEED]),
      clampR_le _ _ _ (by norm_num [MAX_REVERSE_SPEED, NITROUS_MAX_SPEED]),
      clampR_abs_le _ _ _ _ (by norm_num [MAX_REVERSE_SPEED, MAX_SPEED])
        (by norm_num [MAX_REVERSE_SPEED, NITROUS_MAX_SPEED])
        (by norm_num [MAX_SPEED, NITROUS_MAX_SPEED])⟩

theorem handleObstacle_py (v : Vehicle) (o : Obstacle) : (handleObstacle v o).py = v.py := by
  simp only [handleObstacle]
  split_ifs <;> rfl

theorem handleCollisions_py (obstacles : List Obstacle) (v : Vehicle) :
    (ObstacleManager.handleCollisions obstacles v).py = v.py := by
  unfold ObstacleManager.handleCollisions
  induction obstacles generalizing v with
  | nil => rfl
  | cons o os ih => rw [List.foldl_cons, ih, handleObstacle_py]

theorem normalizeRotation_of_nonneg_lt (r : ℝ) (h0 : 0 ≤ r) (h1 : r < TWO_PI) :
    normalizeRotation r = r := by
  have h2pi : (0 : ℝ) < TWO_PI := by unfold TWO_PI; positivity
  have hx0 : 0 ≤ r / TWO_PI := div_nonneg h0 h2pi.le
  have hx1 : r / TWO_PI < 1 := (div_lt_one h2pi).2 h1
  unfold normalizeRotation fmodR truncR
  rw [if_pos hx0, show ⌊r / TWO_PI⌋ = 0 from Int.floor_eq_zero_iff.2 ⟨hx0, hx1⟩]
  push_cast
  rw [mul_zero, sub_zero, if_neg (not_lt.2 h0)]

theorem normalizeRotation_of_neg (r : ℝ) (h0 : -TWO_PI < r) (h1 : r < 0) :
    normalizeRotation r = r + TWO_PI := by
  have h2pi : (0 : ℝ) < TWO_PI := by unfold TWO_PI; positivity
  have hx1 : r / TWO_PI ≤ 0 := div_nonpos_of_nonpos_of_nonneg h1.le h2pi.le
  have hx0 : -1 < r / TWO_PI := by
    rw [neg_lt, ← neg_div]
    exact (div_lt_one h2pi).2 (by linarith)
  have hne : ¬ (0 ≤ r / TWO_PI) := by
    intro h
    have : r / TWO_PI = 0 := le_antisymm hx1 h
    have : r = 0 := by field_simp at this; linarith [this]
    linarith
  unfold normalizeRotation fmodR truncR
  rw [if_neg hne, show ⌈r / TWO_PI⌉ = 0 from Int.ceil_eq_zero_iff.2 ⟨hx0, hx1⟩]
  push_cast
  rw [mul_zero, sub_zero, if_pos h1]

/-- C4 (amended): the rotation change of turn(amount) is amount x TURN_SPEED
x turnRate and does not depend on the sign of the velocity: negating the
velocity leaves the turn rate — and hence the rotation written by turn —
unchanged. -/
theorem C4_turn_rotation_sign_independent (s : Vehicle) (amount : ℝ) :
    (turn s amount).rotation =
      normalizeRotation (s.rotation + amount * TURN_SPEED * calculateTurnRate s) ∧
    calculateTurnRate { s with velocity := -s.velocity } = calculateTurnRate s ∧
    (turn { s with velocity := -s.velocity } amount).rotation = (turn s amount).rotation := by
  have hrate : calculateTurnRate { s with velocity := -s.velocity } = calculateTurnRate s := by
    simp only [calculateTurnRate, abs_neg]
  refine ⟨rfl, hrate, ?_⟩
  simp only [turn, hrate]

/-- A vehicle at the origin with rotation 0 and velocity 5 (above every turn
threshold), and its mirror with velocity -5. -/
def c4VehiclePos : Vehicle := setVelocity (setRotation (mkVehicle 0 0 0) 0) 5

def c4VehicleNeg : Vehicle := setVelocity (setRotation (mkVehicle 0 0 0) 0) (-5)

theorem calculateTurnRate_c4Pos : calculateTurnRate c4VehiclePos = 7 / 12 := by
  simp only [calculateTurnRate, c4VehiclePos, setVelocity, setRotation, mkVehicle]
  norm_num [MIN_SPEED_THRESHOLD, TURN_RATE_MIN_SPEED, TURN_RATE_LOW_SPEED, TURN_RATE_MEDIUM_SPEED,
    abs_of_nonneg]

theorem calculateTurnRate_c4Neg : calculateTurnRate c4VehicleNeg = 7 / 12 := by
  simp only [calculateTurnRate, c4VehicleNeg, setVelocity, setRotation, mkVehicle]
  rw [show |(-5 : ℝ)| = 5 by norm_num]
  norm_num [MIN_SPEED_THRESHOLD, TURN_RATE_MIN_SPEED, TURN_RATE_LOW_SPEED, TURN_RATE_MEDIUM_SPEED]

/-- C4 counterexample: turn(1) from rotation 0 yields rotation 7/8 both at
velocity 5 and at velocity -5 — the code has no sign(velocity) factor — while
the claimed formula demands rotation 2 pi - 7/8 for the reverse-moving
vehicle, a different value. -/
theorem C4_counterexample_steering_does_not_reverse :
    (turn c4VehiclePos 1).rotation = 7 / 8 ∧
    (turn c4VehicleNeg 1).rotation = 7 / 8 ∧
    normalizeRotation ((0 : ℝ) + 1 * TURN_SPEED * calculateTurnRate c4VehicleNeg * (-1)) =
      2 * Real.pi - 7 / 8 ∧
    (7 : ℝ) / 8 ≠ 2 * Real.pi - 7 / 8 := by
  have hpi := Real.pi_gt_three
  have h78 : ((0:ℝ) + 1 * TURN_SPEED * (7/12)) = 7/8 := by norm_num [TURN_SPEED]
  have hrotPos : (turn c4VehiclePos 1).rotation =
      normalizeRotation (c4VehiclePos.rotation + 1 * TURN_SPEED * calculateTurnRate c4VehiclePos) := rfl
  have hrotNeg : (turn c4VehicleNeg 1).rotation =
      normalizeRotation (c4VehicleNeg.rotation + 1 * TURN_SPEED * calculateTurnRate c4VehicleNeg) := rfl
  have hr0 : c4VehiclePos.rotation = 0 := rfl
  have hr0n : c4VehicleNeg.rotation = 0 := rfl
  refine ⟨?_, ?_, ?_, ?_⟩
  · rw [hrotPos, hr0, calculateTurnRate_c4Pos, h78]
    exact normalizeRotation_of_nonneg_lt _ (by norm_num) (by unfold TWO_PI; linarith)
  · rw [hrotNeg, hr0n, calculateTurnRate_c4Neg, h78]
    exact normalizeRotation_of_nonneg_lt _ (by norm_num) (by unfold TWO_PI; linarith)
  · rw [calculateTurnRate_c4Neg,
      show ((0 : ℝ) + 1 * TURN_SPEED * (7/12) * (-1)) = -(7/8) by norm_num [TURN_SPEED],
      normalizeRotation_of_neg _ (by unfold TWO_PI; linarith) (by norm_num)]
    unfold TWO_PI
    ring
  · intro h
    have : Real.pi = 7 / 8 := by linarith
    linarith

theorem update_nitrousActive (s : Vehicle) (dt : ℝ) :
    (update s dt).nitrousActive =
      if s.nitrousActive then (if s.nitrousTimeRemaining - dt ≤ 0 then false else true)
      else s.nitrousActive := by
  simp only [update]

theorem update_nitrousTimeRemaining (s : Vehicle) (dt : ℝ) :
    (update s dt).nitrousTimeRemaining =
      if s.nitrousActive then (if s.nitrousTimeRemaining - dt ≤ 0 then 0 else s.nitrousTimeRemaining - dt)
      else s.nitrousTimeRemaining := by
  simp only [update]

theorem update_hasNitrous (s : Vehicle) (dt : ℝ) : (update s dt).hasNitrous = s.hasNitrous := rfl

theorem update_velocity (s : Vehicle) (dt : ℝ) :
    (update s dt).velocity =
      clampR ((s.velocity + s.acceleration * dt) *
        (if s.isDrifting then
            (if s.isDrifting then DRIFT_FRICTION_COEFFICIENT else FRICTION_COEFFICIENT)
          else clampR (0.994 + ((Real.log (clampR (|s.velocity + s.acceleration * dt| / MAX_SPEED) 0.01 1.0) + 4.6) / 4.6) *
              ((0.9985 : ℝ) - 0.994)) 0.994 0.9985))
        (-MAX_REVERSE_SPEED)
        (if (update s dt).nitrousActive then NITROUS_MAX_SPEED else MAX_SPEED) := by
  simp only [update]

theorem update_currentGear (s : Vehicle) (dt : ℝ) :
    (update s dt).currentGear = updateGearShifting s.currentGear s.velocity := rfl

theorem updateSeq_nitrous_off (dts : List ℝ) (s : Vehicle)
    (h1 : s.nitrousActive = false) (h2 : s.nitrousTimeRemaining = 0) :
    (updateSeq s dts).nitrousActive = false ∧ (updateSeq s dts).nitrousTimeRemaining = 0 := by
  induction dts generalizing s with
  | nil => exact ⟨h1, h2⟩
  | cons d ds ih =>
    have ha : (update s d).nitrousActive = false := by
      rw [update_nitrousActive, h1]; simp
    have ht : (update s d).nitrousTimeRemaining = 0 := by
      rw [update_nitrousTimeRemaining, h1]; simp [h2]
    simpa only [updateSeq, List.foldl_cons] using ih (update s d) ha ht

theorem updateSeq_nitrous_expires (dts : List ℝ) (s : Vehicle)
    (hact : s.nitrousActive = true) (hpos : 0 < s.nitrousTimeRemaining)
    (hsum : ∃ n, s.nitrousTimeRemaining ≤ (dts.take n).sum) :
    (updateSeq s dts).nitrousActive = false ∧ (updateSeq s dts).nitrousTimeRemaining = 0 := by
  induction dts generalizing s with
  | nil =>
    obtain ⟨n, hn⟩ := hsum
    simp only [List.take_nil, List.sum_nil] at hn
    linarith
  | cons d ds ih =>
    by_cases hd : s.nitrousTimeRemaining - d ≤ 0
    · have ha : (update s d).nitrousActive = false := by
        rw [update_nitrousActive, hact]; simp [hd]
      have ht : (update s d).nitrousTimeRemaining = 0 := by
        rw [update_nitrousTimeRemaining, hact]; simp [hd]
      simpa only [updateSeq, List.foldl_cons] using updateSeq_nitrous_off ds (update s d) ha ht
    · push_neg at hd
      have ha : (update s d).nitrousActive = true := by
        rw [update_nitrousActive, hact]; simp; linarith
      have ht : (update s d).nitrousTimeRemaining = s.nitrousTimeRemaining - d := by
        rw [update_nitrousTimeRemaining, hact]; simp; intro h; linarith
      have hsum' : ∃ n, (update s d).nitrousTimeRemaining ≤ (ds.take n).sum := by
        obtain ⟨n, hn⟩ := hsum
        cases n with
        | zero => simp only [List.take_zero, List.sum_nil] at hn; linarith
        | succ m =>
          refine ⟨m, ?_⟩
          rw [ht]
          simp only [List.take_succ_cons, List.sum_cons] at hn
          linarith
      simpa only [updateSeq, List.foldl_cons] using
        ih (update s d) ha (by rw [ht]; linarith) hsum'

/-- Two distinct entities placed at exactly the same (x, z) position. -/
def c5EntityA : Entity := { px := 0, py := 0, pz := 0, collisionRadius := 1 }

def c5EntityB : Entity := { px := 0, py := 5, pz := 0, collisionRadius := 2 }

/-- C5 counterexample: for two entities at the same position both collision
calls return the canonical normal (1, 0) — swapping self and other does NOT
flip the sign of the normal (1 is not -1), though both report the collision
with overlap equal to the radius sum. -/
theorem C5_counterexample_coincident_normals :
    checkCircleCollision c5EntityA c5EntityB = some (3, 1, 0) ∧
    checkCircleCollision c5EntityB c5EntityA = some (3, 1, 0) ∧
    ¬ ((1 : ℝ) = -(1 : ℝ)) := by
  refine ⟨?_, ?_, by norm_num⟩ <;>
  · simp only [checkCircleCollision, c5EntityA, c5EntityB]
    norm_num [MIN_DISTANCE_EPSILON]

/-- C5 (amended): the collision verdict and the overlap distance are
symmetric in self and other; whenever the centers are farther apart than
MIN_DISTANCE_EPSILON the two normals are exact negations of each other, while
centers within the epsilon give both calls the same canonical normal (1, 0). -/
theorem C5_collision_symmetry (a b : Entity) :
    ((checkCircleCollision a b).isSome = (checkCircleCollision b a).isSome) ∧
    (∀ o1 n1x n1z o2 n2x n2z,
      checkCircleCollision a b = some (o1, n1x, n1z) →
      checkCircleCollision b a = some (o2, n2x, n2z) →
      o1 = o2 ∧
      (Real.sqrt ((b.px - a.px) * (b.px - a.px) + (b.pz - a.pz) * (b.pz - a.pz)) ≤
          MIN_DISTANCE_EPSILON →
        n1x = 1 ∧ n1z = 0 ∧ n2x = 1 ∧ n2z = 0) ∧
      (MIN_DISTANCE_EPSILON <
          Real.sqrt ((b.px - a.px) * (b.px - a.px) + (b.pz - a.pz) * (b.pz - a.pz)) →
        n2x = -n1x ∧ n2z = -n1z)) := by
  have hd : (a.px - b.px) * (a.px - b.px) + (a.pz - b.pz) * (a.pz - b.pz) =
      (b.px - a.px) * (b.px - a.px) + (b.pz - a.pz) * (b.pz - a.pz) := by ring
  have hrs : b.collisionRadius + a.collisionRadius = a.collisionRadius + b.collisionRadius :=
    add_comm _ _
  constructor
  · simp only [checkCircleCollision, hd, hrs]
    split_ifs <;> rfl
  · intro o1 n1x n1z o2 n2x n2z h1 h2
    simp only [checkCircleCollision] at h1 h2
    rw [hd, hrs] at h2
    split_ifs at h1 h2 with hfar hnear
    · have h1' := h1.symm
      have h2' := h2.symm
      rw [Option.some.injEq, Prod.mk.injEq, Prod.mk.injEq] at h1' h2'
      obtain ⟨ho1, hx1, hz1⟩ := h1'
      obtain ⟨ho2, hx2, hz2⟩ := h2'
      refine ⟨ho1.trans ho2.symm, fun _ => ⟨?_, ?_, ?_, ?_⟩,
        fun hlt => absurd hnear (not_le.2 hlt)⟩ <;>
      · first
        | (rw [hx1]; norm_num)
        | (rw [hz1]; norm_num)
        | (rw [hx2]; norm_num)
        | (rw [hz2]; norm_num)
    · have h1' := h1.symm
      have h2' := h2.symm
      rw [Option.some.injEq, Prod.mk.injEq, Prod.mk.injEq] at h1' h2'
      obtain ⟨ho1, hx1, hz1⟩ := h1'
      obtain ⟨ho2, hx2, hz2⟩ := h2'
      refine ⟨ho1.trans ho2.symm, fun hle => absurd hle hnear, fun _ => ⟨?_, ?_⟩⟩
      · rw [hx1, hx2]; ring
      · rw [hz1, hz2]; ring

/-- A freshly constructed vehicle (gear 1) whose velocity has been set to 30
through Vehicle::setVelocity. -/
def c3State : Vehicle := setVelocity (mkVehicle 0 0 0) 30

/-- C3 counterexample: one update() from gear 1 at velocity 30 yields gear 2
(the code shifts at most one gear per call, from the pre-integration
velocity), while the claimed pure-function lookup of the post-update velocity
(which lands in [29.82, 29.955], inside the gear-3 band) demands gear 3. -/
theorem C3_counterexample_gear_not_pure_function :
    (update c3State 0).currentGear = 2 ∧
    specGear (update c3State 0).velocity = 3 ∧
    (2 : ℤ) ≠ 3 := by
  have hgear : (update c3State 0).currentGear = updateGearShifting 1 30 := by
    rw [update_currentGear]; rfl
  have h2 : updateGearShifting 1 30 = 2 := by
    simp only [updateGearShifting]
    norm_num [NUM_GEARS, GEAR_SPEEDS]
  have hna : (update c3State 0).nitrousActive = false := by
    rw [update_nitrousActive]
    rfl
  have hv := update_velocity c3State 0
  rw [hna] at hv
  have hproj : c3State.velocity = 30 ∧ c3State.acceleration = 0 ∧ c3State.isDrifting = false :=
    ⟨rfl, rfl, rfl⟩
  rw [hproj.1, hproj.2.1, hproj.2.2] at hv
  simp only [Bool.false_eq_true, if_false] at hv
  set mu := clampR (0.994 + ((Real.log (clampR (|(30 : ℝ) + 0 * 0| / MAX_SPEED) 0.01 1.0) + 4.6) / 4.6) *
      ((0.9985 : ℝ) - 0.994)) 0.994 0.9985 with hmu
  have hmulo : (0.994 : ℝ) ≤ mu := le_clampR _ _ _ (by norm_num)
  have hmuhi : mu ≤ 0.9985 := clampR_le _ _ _ (by norm_num)
  have hlo : (29.82 : ℝ) ≤ (30 + 0 * 0) * mu := by nlinarith
  have hhi : (30 + 0 * 0) * mu ≤ 29.955 := by nlinarith
  have hF : (update c3State 0).velocity = (30 + 0 * 0) * mu := by
    rw [hv]
    exact clampR_eq_self _ _ _ (by norm_num [MAX_REVERSE_SPEED]; linarith)
      (by norm_num [MAX_SPEED]; linarith)
  refine ⟨hgear.trans h2, ?_, by norm_num⟩
  have h0 : ¬ ((update c3State 0).velocity < 0) := by rw [hF]; intro h; linarith
  have habs : |(update c3State 0).velocity| = (update c3State 0).velocity :=
    abs_of_nonneg (by rw [hF]; linarith)
  unfold specGear
  rw [if_neg h0, habs,
    if_neg (by rw [hF]; intro h; linarith),
    if_neg (by rw [hF, show GEAR_SPEEDS 1 = 12 by norm_num [GEAR_SPEEDS]]; intro h; linarith),
    if_neg (by rw [hF, show GEAR_SPEEDS 2 = 22 by norm_num [GEAR_SPEEDS]]; intro h; linarith),
    if_pos (by rw [hF, show GEAR_SPEEDS 3 = 35 by norm_num [GEAR_SPEEDS]]; linarith)]

/-- C3 (amended): the gear after update() is a pure function of the
pre-update gear and the pre-integration velocity, moving at most one gear per
call: 0 whenever that velocity is negative, 1 whenever its absolute value is
below the 0.1 threshold, one gear up when the current gear's upper boundary
is reached, one gear down when the absolute velocity falls below the lower
boundary, otherwise unchanged. -/
theorem C3_gear_incremental_from_preupdate_velocity (s : Vehicle) (dt : ℝ) :
    (update s dt).currentGear = updateGearShifting s.currentGear s.velocity ∧
    (s.velocity < 0 → (update s dt).currentGear = 0) ∧
    (0 ≤ s.velocity → |s.velocity| < 0.1 → (update s dt).currentGear = 1) ∧
    (updateGearShifting s.currentGear s.velocity = 0 ∨
     updateGearShifting s.currentGear s.velocity = 1 ∨
     (s.currentGear - 1 ≤ updateGearShifting s.currentGear s.velocity ∧
      updateGearShifting s.currentGear s.velocity ≤ s.currentGear + 1)) := by
  refine ⟨update_currentGear s dt, ?_, ?_, ?_⟩
  · intro h
    rw [update_currentGear]
    simp only [updateGearShifting]
    rw [if_pos h]
  · intro h1 h2
    rw [update_currentGear]
    simp only [updateGearShifting]
    rw [if_neg (not_lt.2 h1), if_pos h2]
  · simp only [updateGearShifting]
    split_ifs <;> omega

/-- C7: pickupNitrous grants availability; activateNitrous is a no-op unless
nitrous is available and not already active, and otherwise consumes the
availability, activates the boost and sets the remaining time to the fixed
positive duration; once the deltaTime values passed to update() sum up to the
duration, the boost is inactive and the remaining time is exactly 0. -/
theorem C7_nitrous_lifecycle (s : Vehicle) (dts : List ℝ) :
    (pickupNitrous s).hasNitrous = true ∧
    (¬(s.hasNitrous = true ∧ s.nitrousActive = false) → activateNitrous s = s) ∧
    (s.hasNitrous = true → s.nitrousActive = false →
      (activateNitrous s).hasNitrous = false ∧
      (activateNitrous s).nitrousActive = true ∧
      (activateNitrous s).nitrousTimeRemaining = NITROUS_DURATION ∧
      0 < NITROUS_DURATION) ∧
    (s.hasNitrous = true → s.nitrousActive = false →
      (∃ n, NITROUS_DURATION ≤ (dts.take n).sum) →
      (updateSeq (activateNitrous s) dts).nitrousActive = false ∧
      (updateSeq (activateNitrous s) dts).nitrousTimeRemaining = 0) := by
  refine ⟨rfl, ?_, ?_, ?_⟩
  · intro h
    unfold activateNitrous
    rw [if_neg h]
  · intro h1 h2
    unfold activateNitrous
    rw [if_pos ⟨h1, h2⟩]
    exact ⟨rfl, rfl, rfl, by norm_num [NITROUS_DURATION]⟩
  · intro h1 h2 hsum
    have hact : (activateNitrous s).nitrousActive = true := by
      unfold activateNitrous; rw [if_pos ⟨h1, h2⟩]
    have htime : (activateNitrous s).nitrousTimeRemaining = NITROUS_DURATION := by
      unfold activateNitrous; rw [if_pos ⟨h1, h2⟩]
    exact updateSeq_nitrous_expires dts (activateNitrous s) hact
      (by rw [htime]; norm_num [NITROUS_DURATION]) (by rw [htime]; exact hsum)

/-- Every cached collision radius in play is the constructor value, so every
radius sum squared equals 2. -/
theorem radiusSum_sq :
    (gameObjectInitialRadius + gameObjectInitialRadius) *
      (gameObjectInitialRadius + gameObjectInitialRadius) = 2 := by
  have h : gameObjectInitialRadius * gameObjectInitialRadius = 0.5 := by
    unfold gameObjectInitialRadius
    rw [show (0.5 * 0.5 + 0.5 * 0.5 : ℝ) = 0.5 by norm_num]
    exact Real.mul_self_sqrt (by norm_num)
  nlinarith [h]

/-- An obstacle whose center is farther than the radius sum leaves the
vehicle untouched. -/
theorem handleObstacle_far (v : Vehicle) (o : Obstacle)
    (hv : v.collisionRadius = gameObjectInitialRadius)
    (ho : o.collisionRadius = gameObjectInitialRadius)
    (h : (o.px - v.px) * (o.px - v.px) + (o.pz - v.pz) * (o.pz - v.pz) > 2) :
    handleObstacle v o = v := by
  have hnone : checkCircleCollision v.toEntity o.toEntity = none := by
    simp only [checkCircleCollision, Vehicle.toEntity, Obstacle.toEntity, hv, ho]
    rw [if_pos (by rw [radiusSum_sq]; exact h)]
  simp only [handleObstacle, hnone, Option.isSome_none, Bool.false_eq_true, if_false]

theorem foldl_fixed {α β : Type} (f : α → β → α) (v : α) (l : List β)
    (h : ∀ o ∈ l, f v o = v) : l.foldl f v = v := by
  induction l with
  | nil => rfl
  | cons o os ih =>
    rw [List.foldl_cons, h o (List.mem_cons_self o os)]
    exact ih fun q hq => h q (List.mem_cons_of_mem o hq)

/-- The test scenario of test_managers.cpp, section "Stops vehicle on
collision": ObstacleManager(20.0f, 0) generates 16 wall segments; the vehicle
is placed at the position of the first generated wall and given velocity 10. -/
def c1Vehicle : Vehicle := setVelocity (setPosition (mkVehicle 0 0 0) (-7.5) 2.5 (-10)) 10

def c1Walls : List Obstacle := generateWalls 20 2.5

/-- What ObstacleManager::handleCollisions actually does to c1Vehicle: one
push-out along z by overlapZ + COLLISION_BUFFER and velocity scaled to 30
percent — not zeroed. -/
def c1AfterHit : Vehicle := { c1Vehicle with pz := -12.05, velocity := 3 }

theorem c1Walls_eq : c1Walls =
    [mkWallHorizontal (-7.5) WALL_HEIGHT (-10) 2.5, mkWallHorizontal (-7.5) WALL_HEIGHT 10 2.5,
     mkWallVertical (-10) WALL_HEIGHT (-7.5) 2.5, mkWallVertical 10 WALL_HEIGHT (-7.5) 2.5,
     mkWallHorizontal (-2.5) WALL_HEIGHT (-10) 2.5, mkWallHorizontal (-2.5) WALL_HEIGHT 10 2.5,
     mkWallVertical (-10) WALL_HEIGHT (-2.5) 2.5, mkWallVertical 10 WALL_HEIGHT (-2.5) 2.5,
     mkWallHorizontal 2.5 WALL_HEIGHT (-10) 2.5, mkWallHorizontal 2.5 WALL_HEIGHT 10 2.5,
     mkWallVertical (-10) WALL_HEIGHT 2.5 2.5, mkWallVertical 10 WALL_HEIGHT 2.5 2.5,
     mkWallHorizontal 7.5 WALL_HEIGHT (-10) 2.5, mkWallHorizontal 7.5 WALL_HEIGHT 10 2.5,
     mkWallVertical (-10) WALL_HEIGHT 7.5 2.5, mkWallVertical 10 WALL_HEIGHT 7.5 2.5] := by
  have hdiv : (20 : ℝ) / WALL_SEGMENT_LENGTH = 4 := by norm_num [WALL_SEGMENT_LENGTH]
  have hseg : (truncR ((20 : ℝ) / WALL_SEGMENT_LENGTH)).toNat = 4 := by
    rw [hdiv]
    unfold truncR
    rw [if_pos (by norm_num), show ⌊(4 : ℝ)⌋ = 4 by norm_num]
    rfl
  simp only [c1Walls, generateWalls, hseg,
    show List.range 4 = [0, 1, 2, 3] from rfl, List.map_cons, List.map_nil,
    List.flatten_cons, List.flatten_nil, List.cons_append, List.nil_append,
    List.cons.injEq, mkWallHorizontal, mkWallVertical, Obstacle.mk.injEq]
  norm_num [WALL_SEGMENT_LENGTH]

theorem c1_first_wall_hit :
    handleObstacle c1Vehicle (mkWallHorizontal (-7.5) WALL_HEIGHT (-10) 2.5) = c1AfterHit := by
  have hsome : (checkCircleCollision c1Vehicle.toEntity
      (mkWallHorizontal (-7.5) WALL_HEIGHT (-10) 2.5).toEntity).isSome = true := by
    simp only [checkCircleCollision, Vehicle.toEntity, Obstacle.toEntity,
      c1Vehicle, setVelocity, setPosition, mkVehicle, mkWallHorizontal]
    rw [if_neg (by rw [radiusSum_sq]; norm_num)]
    split_ifs <;> rfl
  simp only [handleObstacle, hsome, if_true]
  rw [if_pos, if_neg, if_neg]
  · simp only [c1AfterHit, c1Vehicle, setVelocity, setPosition, mkVehicle, mkWallHorizontal,
      Vehicle.mk.injEq, COLLISION_BUFFER, VEHICLE_WIDTH, VEHICLE_LENGTH, WALL_LENGTH,
      WALL_THICKNESS]
    norm_num
  · simp only [c1Vehicle, setVelocity, setPosition, mkVehicle, mkWallHorizontal]
    norm_num
  · simp only [c1Vehicle, setVelocity, setPosition, mkVehicle, mkWallHorizontal,
      VEHICLE_WIDTH, VEHICLE_LENGTH, WALL_LENGTH, WALL_THICKNESS]
    norm_num
  · simp only [c1Vehicle, setVelocity, setPosition, mkVehicle, mkWallHorizontal,
      VEHICLE_WIDTH, VEHICLE_LENGTH, WALL_LENGTH, WALL_THICKNESS]
    constructor <;> norm_num

/-- C1: evaluated at the test scenario of test_managers.cpp ("Stops vehicle
on collision": vehicle placed exactly at the first generated wall of
ObstacleManager(20, 0), velocity set to 10), one handleCollisions call leaves
velocity 3 = 10 x 0.3, not the 0 the claim and the repository's own test
require. -/
theorem C1_wall_collision_velocity_not_zeroed :
    (ObstacleManager.handleCollisions c1Walls c1Vehicle).velocity = 3 ∧ (3 : ℝ) ≠ 0 := by
  refine ⟨?_, by norm_num⟩
  rw [ObstacleManager.handleCollisions, c1Walls_eq, List.foldl_cons, c1_first_wall_hit,
    foldl_fixed handleObstacle c1AfterHit _ ?_]
  · rfl
  · intro o ho
    fin_cases ho <;>
      refine handleObstacle_far _ _ rfl rfl ?_ <;>
      · simp only [c1AfterHit, c1Vehicle, setVelocity, setPosition, mkVehicle,
          mkWallHorizontal, mkWallVertical]
        norm_num

/-- The condition under which some powerup of the list can be collected by
the vehicle: the powerup is active, the vehicle holds no nitrous, no boost is
running, and the collision circles intersect. -/
def canCollect (vehicle : Vehicle) (ps : List Powerup) : Prop :=
  vehicle.hasNitrous = false ∧ vehicle.nitrousActive = false ∧
    ∃ p ∈ ps, p.active = true ∧
      (checkCircleCollision vehicle.toEntity p.toEntity).isSome = true

/-- A vehicle already holding nitrous collects nothing: the powerup sweep
returns vehicle and powerups unchanged. -/
theorem powerup_sweep_no_collect (vehicle : Vehicle) (ps : List Powerup)
    (h : vehicle.hasNitrous = true) :
    PowerupManager.handleCollisions vehicle ps = (vehicle, ps) := by
  induction ps with
  | nil => rfl
  | cons p ps ih =>
    simp only [PowerupManager.handleCollisions]
    rw [if_neg, ih]
    rintro ⟨-, h2, -⟩
    rw [h] at h2
    exact Bool.noConfusion h2

/-- Case analysis of one PowerupManager::handleCollisions call: either no
powerup qualifies and both the vehicle and the list are returned unchanged,
or some powerup qualifies; then the vehicle gains nitrous, exactly one active
powerup is deactivated and every other powerup is unchanged. -/
theorem handleCollisionsPow_spec (vehicle : Vehicle) (ps : List Powerup) :
    (¬ canCollect vehicle ps ∧ PowerupManager.handleCollisions vehicle ps = (vehicle, ps)) ∨
    (canCollect vehicle ps ∧
      (PowerupManager.handleCollisions vehicle ps).1 = pickupNitrous vehicle ∧
      List.Forall₂ (fun p q => q = p ∨ (p.active = true ∧ q = { p with active := false }))
        ps (PowerupManager.handleCollisions vehicle ps).2 ∧
      (PowerupManager.handleCollisions vehicle ps).2.countP (fun p => p.active) + 1 =
        ps.countP (fun p => p.active)) := by
  induction ps with
  | nil =>
    left
    refine ⟨?_, rfl⟩
    rintro ⟨-, -, p, hp, -⟩
    exact List.not_mem_nil p hp
  | cons p ps ih =>
    by_cases hcond : p.active = true ∧ vehicle.hasNitrous = false ∧
        vehicle.nitrousActive = false ∧
        (checkCircleCollision vehicle.toEntity p.toEntity).isSome = true
    · right
      have hout : PowerupManager.handleCollisions vehicle (p :: ps) =
          (pickupNitrous vehicle, { p with active := false } :: ps) := by
        simp only [PowerupManager.handleCollisions]
        rw [if_pos hcond, powerup_sweep_no_collect (pickupNitrous vehicle) ps rfl]
      refine ⟨⟨hcond.2.1, hcond.2.2.1, p, List.mem_cons_self p ps, hcond.1, hcond.2.2.2⟩, ?_, ?_, ?_⟩
      · rw [hout]
      · rw [hout]
        exact List.Forall₂.cons (Or.inr ⟨hcond.1, rfl⟩)
          ((List.forall₂_same).2 fun x _ => Or.inl rfl)
      · rw [hout]
        simp only [List.countP_cons, hcond.1]
        norm_num
    · have hout : PowerupManager.handleCollisions vehicle (p :: ps) =
          ((PowerupManager.handleCollisions vehicle ps).1,
            p :: (PowerupManager.handleCollisions vehicle ps).2) := by
        simp only [PowerupManager.handleCollisions]
        rw [if_neg hcond]
      rcases ih with ⟨hnc, heq⟩ | ⟨hcc, h1, hF, hcnt⟩
      · left
        constructor
        · rintro ⟨hh, ha, q, hq, hqa, hqi⟩
          rcases List.mem_cons.1 hq with rfl | hq2
          · exact hcond ⟨hqa, hh, ha, hqi⟩
          · exact hnc ⟨hh, ha, q, hq2, hqa, hqi⟩
        · rw [hout, heq]
      · right
        obtain ⟨hh, ha, q, hq, hqa, hqi⟩ := hcc
        refine ⟨⟨hh, ha, q, List.mem_cons_of_mem p hq, hqa, hqi⟩, ?_, ?_, ?_⟩
        · rw [hout]; exact h1
        · rw [hout]
          exact List.Forall₂.cons (Or.inl rfl) hF
        · rw [hout]
          simp only [List.countP_cons]
          omega

/-- C8: one PowerupManager::handleCollisions call transfers state exactly
when an active powerup intersects a vehicle holding neither nitrous
availability nor an active boost; at most one powerup is collected per call
whatever the list order, collected powerups are only ever deactivated (never
reactivated) by the sweep, and reset() reactivates all of them uniformly. -/
theorem C8_powerup_transfer (vehicle : Vehicle) (powerups qs : List Powerup) :
    ((PowerupManager.handleCollisions vehicle powerups).2.length = powerups.length) ∧
    (List.Forall₂ (fun p q => q = p ∨ (p.active = true ∧ q = { p with active := false }))
      powerups (PowerupManager.handleCollisions vehicle powerups).2) ∧
    (powerups.countP (fun p => p.active) ≤
      (PowerupManager.handleCollisions vehicle powerups).2.countP (fun p => p.active) + 1) ∧
    ((PowerupManager.handleCollisions vehicle powerups).2.countP (fun p => p.active) ≤
      powerups.countP (fun p => p.active)) ∧
    (((PowerupManager.handleCollisions vehicle powerups).2.countP (fun p => p.active) <
        powerups.countP (fun p => p.active)) ↔ canCollect vehicle powerups) ∧
    ((PowerupManager.handleCollisions vehicle powerups).1.hasNitrous = true ↔
      (vehicle.hasNitrous = true ∨
        (vehicle.nitrousActive = false ∧ ∃ p ∈ powerups, p.active = true ∧
          (checkCircleCollision vehicle.toEntity p.toEntity).isSome = true))) ∧
    (∀ q ∈ PowerupManager.reset qs, q.active = true) ∧
    ((PowerupManager.reset qs).length = qs.length) := by
  have hreset : (∀ q ∈ PowerupManager.reset qs, q.active = true) ∧
      (PowerupManager.reset qs).length = qs.length := by
    constructor
    · intro q hq
      obtain ⟨r, -, rfl⟩ := List.mem_map.1 hq
      rfl
    · exact List.length_map qs _
  rcases handleCollisionsPow_spec vehicle powerups with ⟨hnc, heq⟩ | ⟨hcc, h1, hF, hcnt⟩
  · have heq2 : (PowerupManager.handleCollisions vehicle powerups).2 = powerups := by
      rw [heq]
    have heq1 : (PowerupManager.handleCollisions vehicle powerups).1 = vehicle := by
      rw [heq]
    rw [heq1, heq2]
    refine ⟨rfl, (List.forall₂_same).2 fun x _ => Or.inl rfl, by omega, le_refl _, ?_, ?_,
      hreset.1, hreset.2⟩
    · simp only [lt_irrefl, false_iff]
      exact hnc
    · constructor
      · exact fun h => Or.inl h
      · rintro (h | ⟨ha, hex⟩)
        · exact h
        · cases hB : vehicle.hasNitrous with
          | true => rfl
          | false => exact absurd ⟨hB, ha, hex⟩ hnc
  · refine ⟨hF.length_eq.symm, hF, by omega, by omega, ?_, ?_, hreset.1, hreset.2⟩
    · simp only [show ((PowerupManager.handleCollisions vehicle powerups).2.countP
          (fun p => p.active) < powerups.countP (fun p => p.active)) from by omega, true_iff]
      exact hcc
    · rw [h1]
      simp only [pickupNitrous, true_iff]
      exact Or.inr ⟨hcc.2.1, hcc.2.2⟩

/-- The conjunction of the two constraints getRandomPositionWithConstraints
checks: far enough from the center, far enough from every existing position. -/
def satisfiesConstraints (pos : ℝ × ℝ) (existingPositions : List (ℝ × ℝ))
    (minDistanceFromCenter minDistanceFromOthers : ℝ) : Prop :=
  ¬ (Real.sqrt (pos.1 * pos.1 + pos.2 * pos.2) < minDistanceFromCenter) ∧
    isPositionValid pos existingPositions minDistanceFromOthers

theorem minDistanceLoop_spec (draws : ℕ → ℝ × ℝ) (existing : List (ℝ × ℝ))
    (minDistance : ℝ) (index fuel : ℕ) :
    (∃ k, index ≤ k ∧ k ≤ index + fuel ∧
      minDistanceLoop draws existing minDistance index fuel = draws k) ∧
    (isPositionValid (minDistanceLoop draws existing minDistance index fuel) existing minDistance ∨
      ((∀ k, index ≤ k → k < index + fuel → ¬ isPositionValid (draws k) existing minDistance) ∧
       minDistanceLoop draws existing minDistance index fuel = draws (index + fuel))) := by
  induction fuel generalizing index with
  | zero =>
    refine ⟨⟨index, le_refl _, by omega, ?_⟩,
      Or.inr ⟨fun k h1 h2 => absurd h2 (by omega), ?_⟩⟩ <;>
      simp [minDistanceLoop]
  | succ n ih =>
    by_cases hv : isPositionValid (draws index) existing minDistance
    · have hstep : minDistanceLoop draws existing minDistance index (n + 1) = draws index := by
        simp only [minDistanceLoop]
        rw [if_pos hv]
      exact ⟨⟨index, le_refl _, by omega, hstep⟩, Or.inl (hstep ▸ hv)⟩
    · have hstep : minDistanceLoop draws existing minDistance index (n + 1) =
          minDistanceLoop draws existing minDistance (index + 1) n := by
        simp only [minDistanceLoop]
        rw [if_neg hv]
      obtain ⟨⟨k, hk1, hk2, hk3⟩, hres⟩ := ih (index + 1)
      refine ⟨⟨k, by omega, by omega, hstep.trans hk3⟩, ?_⟩
      rcases hres with h | ⟨hall, heq⟩
      · exact Or.inl (hstep ▸ h)
      · refine Or.inr ⟨fun j hj1 hj2 => ?_, by rw [hstep, heq]; congr 1; omega⟩
        rcases Nat.eq_or_lt_of_le hj1 with rfl | hj
        · exact hv
        · exact hall j (by omega) (by omega)

theorem constraintsLoop_spec (draws : ℕ → ℝ × ℝ) (existing : List (ℝ × ℝ))
    (minDistanceFromCenter minDistanceFromOthers : ℝ) (index fuel : ℕ) :
    (∃ k, index ≤ k ∧ k ≤ index + fuel ∧
      constraintsLoop draws existing minDistanceFromCenter minDistanceFromOthers index fuel = draws k) ∧
    (satisfiesConstraints
        (constraintsLoop draws existing minDistanceFromCenter minDistanceFromOthers index fuel)
        existing minDistanceFromCenter minDistanceFromOthers ∨
      ((∀ k, index ≤ k → k < index + fuel →
          ¬ satisfiesConstraints (draws k) existing minDistanceFromCenter minDistanceFromOthers) ∧
       constraintsLoop draws existing minDistanceFromCenter minDistanceFromOthers index fuel =
         draws (index + fuel))) := by
  induction fuel generalizing index with
  | zero =>
    refine ⟨⟨index, le_refl _, by omega, ?_⟩,
      Or.inr ⟨fun k h1 h2 => absurd h2 (by omega), ?_⟩⟩ <;>
      simp [constraintsLoop]
  | succ n ih =>
    by_cases hc : Real.sqrt ((draws index).1 * (draws index).1 + (draws index).2 * (draws index).2) <
        minDistanceFromCenter
    · have hstep : constraintsLoop draws existing minDistanceFromCenter minDistanceFromOthers index (n + 1) =
          constraintsLoop draws existing minDistanceFromCenter minDistanceFromOthers (index + 1) n := by
        simp only [constraintsLoop]
        rw [if_pos hc]
      obtain ⟨⟨k, hk1, hk2, hk3⟩, hres⟩ := ih (index + 1)
      refine ⟨⟨k, by omega, by omega, hstep.trans hk3⟩, ?_⟩
      rcases hres with h | ⟨hall, heq⟩
      · exact Or.inl (hstep ▸ h)
      · refine Or.inr ⟨fun j hj1 hj2 => ?_, by rw [hstep, heq]; congr 1; omega⟩
        rcases Nat.eq_or_lt_of_le hj1 with rfl | hj
        · exact fun hsat => hsat.1 hc
        · exact hall j (by omega) (by omega)
    · by_cases hv : isPositionValid (draws index) existing minDistanceFromOthers
      · have hstep : constraintsLoop draws existing minDistanceFromCenter minDistanceFromOthers index (n + 1) =
            draws index := by
          simp only [constraintsLoop]
          rw [if_neg hc, if_pos hv]
        exact ⟨⟨index, le_refl _, by omega, hstep⟩, Or.inl (hstep ▸ ⟨hc, hv⟩)⟩
      · have hstep : constraintsLoop draws existing minDistanceFromCenter minDistanceFromOthers index (n + 1) =
            constraintsLoop draws existing minDistanceFromCenter minDistanceFromOthers (index + 1) n := by
          simp only [constraintsLoop]
          rw [if_neg hc, if_neg hv]
        obtain ⟨⟨k, hk1, hk2, hk3⟩, hres⟩ := ih (index + 1)
        refine ⟨⟨k, by omega, by omega, hstep.trans hk3⟩, ?_⟩
        rcases hres with h | ⟨hall, heq⟩
        · exact Or.inl (hstep ▸ h)
        · refine Or.inr ⟨fun j hj1 hj2 => ?_, by rw [hstep, heq]; congr 1; omega⟩
          rcases Nat.eq_or_lt_of_le hj1 with rfl | hj
          · exact fun hsat => hv hsat.2
          · exact hall j (by omega) (by omega)

/-- C9: both placement queries only ever return one of the first
maxAttempts + 1 draws (at most maxAttempts constrained attempts plus one
final unconstrained draw), hence terminate and stay inside the margin-shrunk
square whenever the underlying draws do; a result produced within the
attempt budget satisfies the requested distance constraints, and once the
budget is exhausted the possibly-too-close draw number maxAttempts is
returned instead of failing. -/
theorem C9_random_position_budget (playAreaSize margin : ℝ) (draws : ℕ → ℝ × ℝ)
    (existing : List (ℝ × ℝ)) (minDistance minDistanceFromCenter minDistanceFromOthers : ℝ)
    (maxAttempts : ℕ)
    (hdraws : ∀ n, inSquare (mkRandomPositionGenerator playAreaSize margin) (draws n)) :
    (∃ k, k ≤ maxAttempts ∧
      getRandomPositionWithMinDistance draws existing minDistance maxAttempts = draws k) ∧
    inSquare (mkRandomPositionGenerator playAreaSize margin)
      (getRandomPositionWithMinDistance draws existing minDistance maxAttempts) ∧
    (isPositionValid (getRandomPositionWithMinDistance draws existing minDistance maxAttempts)
        existing minDistance ∨
      ((∀ k, k < maxAttempts → ¬ isPositionValid (draws k) existing minDistance) ∧
       getRandomPositionWithMinDistance draws existing minDistance maxAttempts = draws maxAttempts)) ∧
    (∃ k, k ≤ maxAttempts ∧
      getRandomPositionWithConstraints draws existing minDistanceFromCenter minDistanceFromOthers
        maxAttempts = draws k) ∧
    inSquare (mkRandomPositionGenerator playAreaSize margin)
      (getRandomPositionWithConstraints draws existing minDistanceFromCenter minDistanceFromOthers
        maxAttempts) ∧
    (satisfiesConstraints
        (getRandomPositionWithConstraints draws existing minDistanceFromCenter minDistanceFromOthers
          maxAttempts) existing minDistanceFromCenter minDistanceFromOthers ∨
      ((∀ k, k < maxAttempts →
          ¬ satisfiesConstraints (draws k) existing minDistanceFromCenter minDistanceFromOthers) ∧
       getRandomPositionWithConstraints draws existing minDistanceFromCenter minDistanceFromOthers
         maxAttempts = draws maxAttempts)) := by
  obtain ⟨⟨k1, -, hk1b, hk1e⟩, hres1⟩ :=
    minDistanceLoop_spec draws existing minDistance 0 maxAttempts
  obtain ⟨⟨k2, -, hk2b, hk2e⟩, hres2⟩ :=
    constraintsLoop_spec draws existing minDistanceFromCenter minDistanceFromOthers 0 maxAttempts
  rw [Nat.zero_add] at hk1b hk2b
  simp only [getRandomPositionWithMinDistance, getRandomPositionWithConstraints]
  refine ⟨⟨k1, hk1b, hk1e⟩, ?_, ?_, ⟨k2, hk2b, hk2e⟩, ?_, ?_⟩
  · rw [hk1e]
    exact hdraws k1
  · rcases hres1 with h | ⟨hall, heq⟩
    · exact Or.inl h
    · exact Or.inr ⟨fun k hk => hall k (Nat.zero_le k) (by omega), by rw [heq]; congr 1; omega⟩
  · rw [hk2e]
    exact hdraws k2
  · rcases hres2 with h | ⟨hall, heq⟩
    · exact Or.inl h
    · exact Or.inr ⟨fun k hk => hall k (Nat.zero_le k) (by omega), by rw [heq]; congr 1; omega⟩

/-- C9 witness: the budget theorem applied at a concrete generator
(playAreaSize 20, margin 0), the constant draw stream at the origin, no
existing positions, unit distance constraints and budget 0. -/
theorem C9_random_position_budget_witness :
    (∃ k, k ≤ 0 ∧
      getRandomPositionWithMinDistance (fun _ => ((0 : ℝ), (0 : ℝ))) [] 1 0 = (fun _ => ((0 : ℝ), (0 : ℝ))) k) ∧
    inSquare (mkRandomPositionGenerator 20 0)
      (getRandomPositionWithMinDistance (fun _ => ((0 : ℝ), (0 : ℝ))) [] 1 0) ∧
    (isPositionValid (getRandomPositionWithMinDistance (fun _ => ((0 : ℝ), (0 : ℝ))) [] 1 0) [] 1 ∨
      ((∀ k, k < 0 → ¬ isPositionValid ((fun _ => ((0 : ℝ), (0 : ℝ))) k) [] 1) ∧
       getRandomPositionWithMinDistance (fun _ => ((0 : ℝ), (0 : ℝ))) [] 1 0 = (fun _ => ((0 : ℝ), (0 : ℝ))) 0)) ∧
    (∃ k, k ≤ 0 ∧
      getRandomPositionWithConstraints (fun _ => ((0 : ℝ), (0 : ℝ))) [] 1 1 0 = (fun _ => ((0 : ℝ), (0 : ℝ))) k) ∧
    inSquare (mkRandomPositionGenerator 20 0)
      (getRandomPositionWithConstraints (fun _ => ((0 : ℝ), (0 : ℝ))) [] 1 1 0) ∧
    (satisfiesConstraints (getRandomPositionWithConstraints (fun _ => ((0 : ℝ), (0 : ℝ))) [] 1 1 0) [] 1 1 ∨
      ((∀ k, k < 0 → ¬ satisfiesConstraints ((fun _ => ((0 : ℝ), (0 : ℝ))) k) [] 1 1) ∧
       getRandomPositionWithConstraints (fun _ => ((0 : ℝ), (0 : ℝ))) [] 1 1 0 = (fun _ => ((0 : ℝ), (0 : ℝ))) 0)) :=
  C9_random_position_budget 20 0 (fun _ => ((0 : ℝ), (0 : ℝ))) [] 1 1 1 0
    (fun n => by
      refine ⟨?_, ?_, ?_, ?_⟩ <;>
        norm_num [mkRandomPositionGenerator, inSquare])

/-- C10: update(), turn() and every other control call leave the y component
of the position unchanged (position integration writes only x and z), and
the obstacle collision sweep writes back the existing y coordinate. -/
theorem C10_ground_plane_height_preserved (s : Vehicle) (deltaTime amount : ℝ)
    (obstacles : List Obstacle) :
    (update s deltaTime).py = s.py ∧
    (turn s amount).py = s.py ∧
    (accelerateForward s).py = s.py ∧
    (accelerateBackward s).py = s.py ∧
    (startDrift s).py = s.py ∧
    (stopDrift s).py = s.py ∧
    (activateNitrous s).py = s.py ∧
    (pickupNitrous s).py = s.py ∧
    (ObstacleManager.handleCollisions obstacles s).py = s.py := by
  refine ⟨rfl, rfl, rfl, rfl, rfl, rfl, ?_, rfl, handleCollisions_py obstacles s⟩
  unfold activateNitrous
  split_ifs <;> rfl

end

end CarSim
